import Mathlib

/-!
Verification of the lazy cut composition model from `lhotse/cut.py`:
segments (`Cut`), derived mixes (`MixedCut`), the id-keyed `CutSet`
registry, truncation, overlay/append, serialization round trips and the
binding discipline for derived entities.  Times are embedded as rationals;
all concrete time constants appearing in the source (3.0, 8.0, 5.0, 7.0,
1e-5) are exactly representable, so rational arithmetic agrees with the
Python float arithmetic at every input used below.
-/

abbrev Seconds := ℚ
abbrev Decibels := ℚ

/-- Modelled from the spec: the annotation-segment contract of
`lhotse.supervision` (not under `src/`): each annotation exposes
`recording_id`, `channel_id`, `start` and `duration` (§6); it may carry an
optional text label, and absent fields are omitted on write and default to
absent on read (§6). -/
structure SupervisionSegment where
  recording_id : String
  channel_id : Int
  start : Seconds
  duration : Seconds
  text : Option String
deriving DecidableEq

def SupervisionSegment.endTime (s : SupervisionSegment) : Seconds :=
  s.start + s.duration

/-- Modelled from the spec: the `TimeSpan` value of `lhotse.utils`
(not under `src/`): a closed time interval given by its start and end. -/
structure TimeSpan where
  start : Seconds
  stop : Seconds
deriving DecidableEq

/-- Modelled from the spec: `overlaps` from `lhotse.utils` (not under
`src/`): the window and the annotation segment have any intersection
(§4.1), i.e. the two closed spans share at least one point. -/
def overlaps (lhs : TimeSpan) (rhs : SupervisionSegment) : Bool :=
  decide (lhs.start ≤ rhs.endTime ∧ rhs.start ≤ lhs.stop)

/-- Modelled from the spec: `overspans` from `lhotse.utils` (not under
`src/`): the annotation segment's span is a subset of the window (§4.1),
i.e. it is fully contained within it. -/
def overspans (spanning : TimeSpan) (spanned : SupervisionSegment) : Bool :=
  decide (spanning.start ≤ spanned.start ∧ spanned.endTime ≤ spanning.stop)

/-- Modelled from the spec: the feature-source reference contract of
`lhotse.features` (not under `src/`): an opaque handle exposing its own
extent, framing parameters `frame_length`/`frame_shift`, a storage
location, and supporting the corpus-assembly lookup key
`(recording_id, channel_id, start, duration)` (§6). -/
structure Features where
  recording_id : String
  channel_id : Int
  start : Seconds
  duration : Seconds
  frame_length : Seconds
  frame_shift : Seconds
  storage_path : String
deriving DecidableEq

/-- `Cut` from `lhotse/cut.py`: an atomic segment holding a feature-source
reference and a list of supervisions. -/
structure Cut where
  id : String
  channel : Int
  start : Seconds
  duration : Seconds
  features : Features
  supervisions : List SupervisionSegment
deriving DecidableEq

/-- `Cut.end` (`cut.py` line 41). -/
def Cut.endTime (c : Cut) : Seconds := c.start + c.duration

/-- Modelled from the spec: the numeric feature arrays and the external
combination routines (`Features.load`, `pad_shorter`, `overlay_fbank` of
`lhotse.features`, not under `src/`).  The spec places feature numerics
out of scope (§1) and treats them as external collaborators (§6), so the
arrays are kept symbolic: each constructor records exactly the operation
and arguments the Python code would perform. -/
inductive FeatArray where
  | loaded : Features → Seconds → Seconds → FeatArray
  | padFirst : FeatArray → FeatArray → FeatArray
  | padSecond : FeatArray → FeatArray → FeatArray
  | overlaid : FeatArray → FeatArray → Decibels → Seconds → Seconds → Seconds → FeatArray
deriving DecidableEq

/-- Modelled from the spec: `Features.load` of `lhotse.features`
(not under `src/`): loads the array for the requested window; failures of
the external load are out of scope (§1, §7d), so the load is recorded
symbolically. -/
def Features.load (f : Features) (start : Seconds) (duration : Seconds) : FeatArray :=
  .loaded f start duration

/-- Modelled from the spec: `pad_shorter` of `lhotse.features`
(not under `src/`): pads the shorter of the two arrays with trailing zero
frames so both have equal length (§4.2 step 4); recorded symbolically. -/
def pad_shorter (a b : FeatArray) : FeatArray × FeatArray :=
  (.padFirst a b, .padSecond a b)

/-- Modelled from the spec: `overlay_fbank` of `lhotse.features`
(not under `src/`): shifts, gain-scales and sums two arrays (§4.2 step 5);
recorded symbolically. -/
def overlay_fbank (a b : FeatArray) (snr : Decibels)
    (offset_right_by frame_length frame_shift : Seconds) : FeatArray :=
  .overlaid a b snr offset_right_by frame_length frame_shift

/-- `Cut.load_features` (`cut.py` lines 43-49): delegates to the feature
reference's load with the cut's own window. -/
def Cut.load_features (c : Cut) : FeatArray :=
  c.features.load c.start c.duration

/-- `Cut.truncate` (`cut.py` lines 51-87).  The fresh uuid is passed in as
`fresh_id`; the two `assert` statements are modelled by returning `none`
when either fails.  Mirrors the source exactly, in particular
`new_duration = self.duration - new_start if until is None else
until - offset` (line 73) and the tolerance `1e-5` (line 75). -/
def Cut.truncate (self : Cut) (fresh_id : String) (offset : Seconds)
    (until_ : Option Seconds) (keep_excessive_supervisions : Bool) : Option Cut :=
  let new_start := self.start + offset
  let new_duration :=
    match until_ with
    | none => self.duration - new_start
    | some u => u - offset
  if new_duration > 0 then
    if new_start + new_duration ≤ self.start + self.duration + 1 / 100000 then
      let new_time_span : TimeSpan := ⟨new_start, new_start + new_duration⟩
      let criterion := if keep_excessive_supervisions then overlaps else overspans
      some { id := fresh_id
             channel := self.channel
             start := new_start
             duration := new_duration
             supervisions := self.supervisions.filter (fun segment => criterion new_time_span segment)
             features := self.features }
    else none
  else none

/-- `MixedCut` (`cut.py` lines 116-129): the declared dataclass fields; the
late-bound `_cut_set` attribute is not part of the value and is modelled
as an explicit `Option CutSet` argument to the derived operations. -/
structure MixedCut where
  id : String
  left_cut_id : String
  right_cut_id : String
  offset_right_by : Seconds
  snr : Decibels
deriving DecidableEq

/-- `Cut.overlay` (`cut.py` lines 89-103); the fresh uuid is passed in. -/
def Cut.overlay (self : Cut) (other : Cut) (fresh_id : String)
    (offset_other_by : Seconds) (snr : Decibels) : MixedCut :=
  { id := fresh_id
    left_cut_id := self.id
    right_cut_id := other.id
    offset_right_by := offset_other_by
    snr := snr }

/-- `Cut.append` (`cut.py` lines 105-113). -/
def Cut.append (self : Cut) (other : Cut) (fresh_id : String) (snr : ℚ) : MixedCut :=
  self.overlay other fresh_id self.duration snr

/-- An entry of a `CutSet`: `Union[Cut, MixedCut]` (`cut.py` line 177). -/
inductive AnyCut where
  | simple : Cut → AnyCut
  | mixed : MixedCut → AnyCut
deriving DecidableEq

def AnyCut.cutId : AnyCut → String
  | .simple c => c.id
  | .mixed m => m.id

/-- `CutSet` (`cut.py` lines 170-177): the id-keyed registry, embedded as
an association list in insertion order. -/
structure CutSet where
  cuts : List (String × AnyCut)
deriving DecidableEq

/-- Dictionary lookup `cut_set.cuts[id_]`. -/
def CutSet.find (cs : CutSet) (id_ : String) : Option AnyCut :=
  cs.cuts.lookup id_

/-- Python run-time failures surfaced by `cut.py`: attribute access on an
object lacking the attribute (in particular the unresolved-reference
failure of reading `_cut_set` on a never-bound `MixedCut`), a missing
dictionary key, a failed `assert`, a constructor called with a wrong field
set, and the explicit `ValueError` of `deserialize_one`. -/
inductive PyError where
  | attributeError : String → PyError
  | keyError : String → PyError
  | assertionError : PyError
  | typeError : PyError
  | valueError : String → PyError
deriving DecidableEq

/-- The recursive resolution behind the `supervisions` property
(`cut.py` line 142): looking an operand up in the registry and reading its
`supervisions` recurses when the operand is itself a `MixedCut`.  A fuel
argument makes the recursion well-founded; `none` is any resolution
failure (missing key or a reference cycle, both hard failures per §7). -/
def AnyCut.supervisionsIn : ℕ → CutSet → AnyCut → Option (List SupervisionSegment)
  | _, _, .simple c => some c.supervisions
  | 0, _, .mixed _ => none
  | fuel + 1, cs, .mixed m => do
      let l ← cs.find m.left_cut_id
      let r ← cs.find m.right_cut_id
      let ls ← AnyCut.supervisionsIn fuel cs l
      let rs ← AnyCut.supervisionsIn fuel cs r
      pure (ls ++ rs)

/-- `MixedCut.supervisions` (`cut.py` lines 139-142): the left operand's
supervisions concatenated with the right operand's, both resolved through
the bound cut set; `none` when unbound or unresolvable. -/
def MixedCut.supervisions (m : MixedCut) (bound : Option CutSet) :
    Option (List SupervisionSegment) :=
  match bound with
  | none => none
  | some cs => AnyCut.supervisionsIn (cs.cuts.length + 1) cs (.mixed m)

/-- The recursive resolution behind the `duration` property
(`cut.py` lines 144-149), with fuel as for `AnyCut.supervisionsIn`. -/
def AnyCut.durationIn : ℕ → CutSet → AnyCut → Option Seconds
  | _, _, .simple c => some c.duration
  | 0, _, .mixed _ => none
  | fuel + 1, cs, .mixed m => do
      let l ← cs.find m.left_cut_id
      let r ← cs.find m.right_cut_id
      let dl ← AnyCut.durationIn fuel cs l
      let dr ← AnyCut.durationIn fuel cs r
      pure (max dl (m.offset_right_by + dr))

/-- `MixedCut.duration` (`cut.py` lines 144-149):
`max(left.duration, offset_right_by + right.duration)` with both operands
resolved through the bound cut set; `none` when unbound or unresolvable. -/
def MixedCut.duration (m : MixedCut) (bound : Option CutSet) : Option Seconds :=
  match bound with
  | none => none
  | some cs => AnyCut.durationIn (cs.cuts.length + 1) cs (.mixed m)

/-- Resolving `cut_set.cuts[id_]`, raising `KeyError` on a missing id. -/
def CutSet.resolve (cs : CutSet) (id_ : String) : Except PyError AnyCut :=
  match cs.find id_ with
  | some c => .ok c
  | none => .error (.keyError id_)

/-- Reading `.features` on a registry entry: a `MixedCut` has no such
attribute, so the access raises `AttributeError`, as in Python. -/
def AnyCut.featuresOf : AnyCut → Except PyError Features
  | .simple c => .ok c.features
  | .mixed _ => .error (.attributeError "features")

/-- `MixedCut.load_features` (`cut.py` lines 151-167).  The unbound case
(`self._cut_set` missing) raises `AttributeError`; then both operands are
resolved (`KeyError` on a missing id), their framing parameters read
(`AttributeError` when an operand is itself a `MixedCut`, which has no
`features` attribute) and asserted equal, and finally the loaded arrays
are padded and overlaid. -/
def MixedCut.load_features (m : MixedCut) (bound : Option CutSet) :
    Except PyError FeatArray := do
  let cs ← match bound with
    | none => Except.error (PyError.attributeError "_cut_set")
    | some cs => Except.ok cs
  let cut0 ← cs.resolve m.left_cut_id
  let cut1 ← cs.resolve m.right_cut_id
  let f0 ← cut0.featuresOf
  let f1 ← cut1.featuresOf
  if f0.frame_length = f1.frame_length then
    if f0.frame_shift = f1.frame_shift then
      match cut0, cut1 with
      | .simple c0, .simple c1 =>
        let feats := pad_shorter c0.load_features c1.load_features
        pure (overlay_fbank feats.1 feats.2 m.snr m.offset_right_by
          f0.frame_length f0.frame_shift)
      | _, _ => Except.error (.attributeError "load_features")
    else Except.error .assertionError
  else Except.error .assertionError

/-- Modelled from the spec: the parsed form of one serialized annotation
record.  The textual layer itself (`yaml.safe_load`/`safe_dump`, not under
`src/`) is out of scope (§1); a record is "a mapping of field name to
value" with "absent/empty fields omitted on write" (§6), embedded as a
structure of optional fields. -/
structure RawSupervision where
  recording_id : Option String
  channel_id : Option Int
  start : Option Seconds
  duration : Option Seconds
  text : Option String
deriving DecidableEq

/-- Modelled from the spec: the parsed form of one serialized
feature-source record (§6), as for `RawSupervision`. -/
structure RawFeatures where
  recording_id : Option String
  channel_id : Option Int
  start : Option Seconds
  duration : Option Seconds
  frame_length : Option Seconds
  frame_shift : Option Seconds
  storage_path : Option String
deriving DecidableEq

/-- Modelled from the spec: the parsed form of one serialized cut record:
the required `type` discriminator plus the union of both entity kinds'
field names, each possibly absent (§6). -/
structure RawCut where
  type : String
  id : Option String
  channel : Option Int
  start : Option Seconds
  duration : Option Seconds
  features : Option RawFeatures
  supervisions : Option (List RawSupervision)
  left_cut_id : Option String
  right_cut_id : Option String
  offset_right_by : Option Seconds
  snr : Option Decibels
deriving DecidableEq

/-- Modelled from the spec: `asdict_nonull` of `lhotse.utils` (not under
`src/`) applied to a `SupervisionSegment`: every set field is written,
absent optional fields are omitted (§6). -/
def SupervisionSegment.toRaw (s : SupervisionSegment) : RawSupervision :=
  { recording_id := some s.recording_id
    channel_id := some s.channel_id
    start := some s.start
    duration := some s.duration
    text := s.text }

/-- Modelled from the spec: `asdict_nonull` applied to a `Features`
record; every field is required, hence always written. -/
def Features.toRaw (f : Features) : RawFeatures :=
  { recording_id := some f.recording_id
    channel_id := some f.channel_id
    start := some f.start
    duration := some f.duration
    frame_length := some f.frame_length
    frame_shift := some f.frame_shift
    storage_path := some f.storage_path }

/-- One record of `CutSet.to_yaml` (`cut.py` line 215):
`{**asdict_nonull(cut), 'type': type(cut).__name__}`. -/
def AnyCut.toRaw : AnyCut → RawCut
  | .simple c =>
    { type := "Cut"
      id := some c.id
      channel := some c.channel
      start := some c.start
      duration := some c.duration
      features := some c.features.toRaw
      supervisions := some (c.supervisions.map SupervisionSegment.toRaw)
      left_cut_id := none
      right_cut_id := none
      offset_right_by := none
      snr := none }
  | .mixed m =>
    { type := "MixedCut"
      id := some m.id
      channel := none
      start := none
      duration := none
      features := none
      supervisions := none
      left_cut_id := some m.left_cut_id
      right_cut_id := some m.right_cut_id
      offset_right_by := some m.offset_right_by
      snr := some m.snr }

/-- `CutSet.to_yaml` (`cut.py` lines 213-215), up to the out-of-scope
textual encoding: one record per cut, in iteration order. -/
def CutSet.to_yaml (cs : CutSet) : List RawCut :=
  cs.cuts.map (fun p => p.2.toRaw)

/-- Error-propagating map: the semantics of a Python list comprehension
whose element expression may raise — elements are processed left to right
and the first failure aborts the whole comprehension. -/
def mapExcept {α β γ : Type} (f : α → Except γ β) : List α → Except γ (List β)
  | [] => .ok []
  | a :: as => do
    let b ← f a
    let bs ← mapExcept f as
    pure (b :: bs)

/-- `SupervisionSegment(**s)` (`cut.py` line 208): every required field
must be present, the optional text label defaults to absent; a wrong field
set raises `TypeError`. -/
def RawSupervision.parseSeg : RawSupervision → Except PyError SupervisionSegment
  | ⟨some r, some ch, some st, some d, t⟩ => .ok ⟨r, ch, st, d, t⟩
  | _ => .error .typeError

/-- `Features(**feature_info)` (`cut.py` line 207). -/
def RawFeatures.parseFeat : RawFeatures → Except PyError Features
  | ⟨some r, some ch, some st, some d, some fl, some fs, some sp⟩ =>
    .ok ⟨r, ch, st, d, fl, fs, sp⟩
  | _ => .error .typeError

/-- `deserialize_one` (`cut.py` lines 192-209): dispatch on the `type`
tag; `MixedCut(**cut)` and `Cut(**cut, ...)` require exactly the declared
field sets (`TypeError` otherwise), and an unknown tag raises
`ValueError`. -/
def deserialize_one (cut : RawCut) : Except PyError AnyCut :=
  if cut.type = "MixedCut" then
    match cut with
    | ⟨_, some i, none, none, none, none, none, some l, some r, some off, some snr⟩ =>
      .ok (.mixed ⟨i, l, r, off, snr⟩)
    | _ => .error .typeError
  else if cut.type = "Cut" then
    match cut with
    | ⟨_, some i, some ch, some st, some d, some rawF, some rawSups, none, none, none, none⟩ => do
      let f ← rawF.parseFeat
      let sups ← mapExcept RawSupervision.parseSeg rawSups
      pure (.simple ⟨i, ch, st, d, f, sups⟩)
    | _ => .error .typeError
  else .error (.valueError cut.type)

/-- One entry of the dictionary comprehension on `cut.py` line 211:
deserialize a record and key the result by the record's `id` field. -/
def fromYamlOne (cut : RawCut) : Except PyError (String × AnyCut) := do
  let c ← deserialize_one cut
  match cut.id with
  | some i => pure (i, c)
  | none => Except.error (PyError.keyError "id")

/-- `CutSet.from_yaml` (`cut.py` lines 187-211), up to the out-of-scope
textual decoding: deserialize every record and key it by its `id` field. -/
def CutSet.from_yaml (raw_cuts : List RawCut) : Except PyError CutSet := do
  let pairs ← mapExcept fromYamlOne raw_cuts
  pure ⟨pairs⟩

/-- Modelled from the spec: `FeatureSet` of `lhotse.features` (not under
`src/`): an index of feature-source references supporting lookup by
`(recording_id, channel_id, start, duration)` (§6). -/
structure FeatureSet where
  features : List Features
deriving DecidableEq

/-- Modelled from the spec: `FeatureSet.find` (not under `src/`): the
corpus-assembly lookup (§6); a miss is a hard failure. -/
def FeatureSet.find (fs : FeatureSet) (recording_id : String) (channel_id : Int)
    (start duration : Seconds) : Except PyError Features :=
  match fs.features.find? (fun f =>
      f.recording_id = recording_id ∧ f.channel_id = channel_id ∧
      f.start = start ∧ f.duration = duration) with
  | some f => .ok f
  | none => .error (.keyError recording_id)

/-- `make_cuts_from_supervisions` (`cut.py` lines 236-257): one fresh-id
cut per supervision, keyed by the cut's own id; the uuid supply is passed
in as `fresh`. -/
def make_cuts_from_supervisions (fresh : ℕ → String)
    (supervision_set : List SupervisionSegment) (feature_set : FeatureSet) :
    Except PyError CutSet := do
  let cuts ← mapExcept (fun p => do
    let supervision := p.2
    let f ← feature_set.find supervision.recording_id supervision.channel_id
      supervision.start supervision.duration
    pure (Cut.mk (fresh p.1) supervision.channel_id supervision.start
      supervision.duration f [supervision])) supervision_set.enum
  pure ⟨cuts.map (fun c => (c.id, AnyCut.simple c))⟩

/-- `mix_stereo_cut_set` (`cut.py` lines 260-277).  Reading `.channel` on
a `MixedCut` entry raises `AttributeError`; `list(set(...))` is embedded
as deduplication in first-occurrence order (Python's set iteration order
is unspecified — the claims below do not depend on it); indexing
`channels[1]` on fewer than two channels raises (`IndexError`, folded into
`keyError` here); pairs are zipped positionally and overlaid with the
default offset 0 and snr 0, keyed by the fresh mix ids. -/
def mix_stereo_cut_set (fresh : ℕ → String) (cut_set : CutSet) :
    Except PyError CutSet := do
  let simples ← mapExcept (fun p =>
    match p.2 with
    | .simple c => Except.ok c
    | .mixed _ => Except.error (PyError.attributeError "channel")) cut_set.cuts
  let channels := (simples.map Cut.channel).dedup
  match channels with
  | ch0 :: ch1 :: _ =>
    let channel0_cuts := simples.filter (fun c => c.channel = ch0)
    let channel1_cuts := simples.filter (fun c => c.channel = ch1)
    let mixed_cuts := (channel0_cuts.zip channel1_cuts).enum.map
      (fun p => p.2.1.overlay p.2.2 (fresh p.1) 0 0)
    pure ⟨mixed_cuts.map (fun m => (m.id, AnyCut.mixed m))⟩
  | _ => Except.error (PyError.keyError "channels")

/-! Concrete example values used by the witnesses below. -/

def exFeat : Features := ⟨"rec1", 0, 0, 100, 1/40, 1/100, "feats/rec1.llc"⟩

def exSup : SupervisionSegment := ⟨"rec1", 0, 1, 2, some "hi"⟩

def exCut : Cut := ⟨"a", 0, 0, 4, exFeat, [exSup]⟩

def exCutB : Cut := ⟨"b", 0, 0, 3, exFeat, [⟨"rec1", 0, 0, 1, some "yo"⟩]⟩

def exCutSet : CutSet := ⟨[("a", .simple exCut), ("b", .simple exCutB)]⟩

def truncExT : Cut := ⟨"t", 0, 1, 2, exFeat, [exSup]⟩

/-- `exCut.truncate "t" 1 (some 3) keep` evaluates to `truncExT` for either
filtering rule: the single supervision spans exactly the new window. -/
theorem exCut_truncate_eval (keep : Bool) :
    exCut.truncate "t" 1 (some 3) keep = some truncExT := by
  cases keep <;>
    norm_num [Cut.truncate, exCut, truncExT, exSup, exFeat, overlaps, overspans,
      SupervisionSegment.endTime, List.filter]

/-- Elimination form for a successful truncation: the result is the record
built on `cut.py` lines 78-87, for some duration value `nd`. -/
theorem truncate_eq_some {c : Cut} {fid : String} {offset : Seconds}
    {until_ : Option Seconds} {keep : Bool} {res : Cut}
    (h : c.truncate fid offset until_ keep = some res) :
    ∃ nd : Seconds,
      res = ⟨fid, c.channel, c.start + offset, nd, c.features,
        c.supervisions.filter (fun s =>
          (if keep then overlaps else overspans)
            ⟨c.start + offset, c.start + offset + nd⟩ s)⟩ := by
  simp only [Cut.truncate] at h
  split at h
  · split at h
    · injection h with h
      exact ⟨_, h.symm⟩
    · exact absurd h (by simp)
  · exact absurd h (by simp)

/-- C10: the truncated segment's supervision list is a subsequence of the
original's — every kept entry is the identical supervision value and the
relative order is preserved (the filter on `cut.py` lines 83-85). -/
theorem truncate_supervisions_sublist (c : Cut) (fid : String) (offset : Seconds)
    (until_ : Option Seconds) (keep : Bool) (res : Cut)
    (h : c.truncate fid offset until_ keep = some res) :
    res.supervisions.Sublist c.supervisions := by
  obtain ⟨nd, rfl⟩ := truncate_eq_some h
  exact List.filter_sublist _

/-- Witness for C10 at a concrete truncation. -/
theorem truncate_supervisions_sublist_witness :
    truncExT.supervisions.Sublist exCut.supervisions :=
  truncate_supervisions_sublist exCut "t" 1 (some 3) true truncExT
    (exCut_truncate_eval true)

/-- C4: a supervision is kept by `truncate` iff it satisfies the selected
criterion against the new window `[new start, new start + new duration]`:
`overlaps` when `keep_excessive_supervisions` is true, `overspans` (full
containment) when false (`cut.py` lines 76-85); and for any window,
containment implies overlap for supervisions of nonnegative duration, so
the contained set is a subset of the overlap set. -/
theorem truncate_supervision_filter_spec :
    (∀ (c : Cut) (fid : String) (offset : Seconds) (until_ : Option Seconds) (res : Cut),
        c.truncate fid offset until_ true = some res →
        ∀ s : SupervisionSegment, s ∈ res.supervisions ↔
          s ∈ c.supervisions ∧
            overlaps ⟨res.start, res.start + res.duration⟩ s = true) ∧
    (∀ (c : Cut) (fid : String) (offset : Seconds) (until_ : Option Seconds) (res : Cut),
        c.truncate fid offset until_ false = some res →
        ∀ s : SupervisionSegment, s ∈ res.supervisions ↔
          s ∈ c.supervisions ∧
            overspans ⟨res.start, res.start + res.duration⟩ s = true) ∧
    (∀ (w : TimeSpan) (s : SupervisionSegment), 0 ≤ s.duration →
        overspans w s = true → overlaps w s = true) := by
  refine ⟨?_, ?_, ?_⟩
  · intro c fid offset until_ res h s
    obtain ⟨nd, rfl⟩ := truncate_eq_some h
    simp [List.mem_filter]
  · intro c fid offset until_ res h s
    obtain ⟨nd, rfl⟩ := truncate_eq_some h
    simp [List.mem_filter]
  · intro w s hd hsp
    simp only [overspans, overlaps, SupervisionSegment.endTime,
      decide_eq_true_eq] at hsp ⊢
    exact ⟨by linarith [hsp.1, hsp.2], by linarith [hsp.1, hsp.2]⟩

/-- Witness for C4: the three parts instantiated at the concrete
truncations of `exCut` and at a concrete window and supervision. -/
theorem truncate_supervision_filter_spec_witness :
    (exSup ∈ truncExT.supervisions ↔
      exSup ∈ exCut.supervisions ∧
        overlaps ⟨truncExT.start, truncExT.start + truncExT.duration⟩ exSup = true) ∧
    (exSup ∈ truncExT.supervisions ↔
      exSup ∈ exCut.supervisions ∧
        overspans ⟨truncExT.start, truncExT.start + truncExT.duration⟩ exSup = true) ∧
    overlaps ⟨0, 4⟩ exSup = true :=
  ⟨truncate_supervision_filter_spec.1 exCut "t" 1 (some 3) truncExT
      (exCut_truncate_eval true) exSup,
   truncate_supervision_filter_spec.2.1 exCut "t" 1 (some 3) truncExT
      (exCut_truncate_eval false) exSup,
   truncate_supervision_filter_spec.2.2 ⟨0, 4⟩ exSup
      (by norm_num [exSup]) (by norm_num [overspans, exSup, SupervisionSegment.endTime])⟩

/-- C1: evaluation at the failing input.  With no `until`, line 73 of
`cut.py` computes `new_duration = self.duration - new_start`, i.e.
`c.duration - c.start - offset` — subtracting an absolute time from a
duration — rather than `c.duration - offset` as documented.  At
`start = 3, duration = 8, offset = 0` the code returns duration `5`,
while the documented value is `8 - 0 = 8`. -/
theorem truncate_until_none_duration_bug :
    ((Cut.mk "x" 0 3 8 exFeat []).truncate "t" 0 none true).map Cut.duration
        = some 5 ∧
      (5 : ℚ) ≠ 8 - 0 := by
  constructor
  · norm_num [Cut.truncate, List.filter]
  · norm_num

/-- C2: evaluation at the docstring's own example (`cut.py` lines 66-70).
For `start = 3, duration = 8`, `truncate(offset=5.0, until=7.0)` returns
`start = 3 + 5 = 8` and `duration = 7 - 5 = 2`, hence `end = 10`, whereas
the docstring (and the claim) state `start == 5.0` and `end ≈ 7.0`. -/
theorem truncate_docstring_example_bug :
    ((Cut.mk "x" 0 3 8 exFeat []).truncate "t" 5 (some 7) true).map
        (fun c => (c.start, c.duration)) = some (8, 2) ∧
      (8 : ℚ) ≠ 5 ∧ ¬ ((10 : ℚ) ≤ 7 + 1 / 100000) := by
  refine ⟨?_, by norm_num, by norm_num⟩
  norm_num [Cut.truncate, List.filter]

/-- C3: a bound mix's duration is
`max(left.duration, offset_right_by + right.duration)` (`cut.py` lines
144-149); in particular an `overlay` with offset 0 and snr 0, bound to a
registry resolving both operands, has duration
`max(a.duration, b.duration)`. -/
theorem mixedCut_duration_formula :
    (∀ (m : MixedCut) (cs : CutSet) (l r : AnyCut) (dl dr : Seconds),
        cs.find m.left_cut_id = some l → cs.find m.right_cut_id = some r →
        AnyCut.durationIn cs.cuts.length cs l = some dl →
        AnyCut.durationIn cs.cuts.length cs r = some dr →
        m.duration (some cs) = some (max dl (m.offset_right_by + dr))) ∧
    (∀ (a b : Cut) (fid : String) (cs : CutSet),
        cs.find a.id = some (.simple a) → cs.find b.id = some (.simple b) →
        (a.overlay b fid 0 0).duration (some cs) = some (max a.duration b.duration)) := by
  constructor
  · intro m cs l r dl dr hl hr hdl hdr
    simp [MixedCut.duration, AnyCut.durationIn, hl, hr, hdl, hdr]
  · intro a b fid cs ha hb
    simp [MixedCut.duration, AnyCut.durationIn, Cut.overlay, ha, hb]

/-- Witness for C3 at a concrete two-element registry. -/
theorem mixedCut_duration_formula_witness :
    ((MixedCut.mk "m" "a" "b" (1 / 2) 0).duration (some exCutSet)
        = some (max (4 : ℚ) (1 / 2 + 3))) ∧
    ((exCut.overlay exCutB "m" 0 0).duration (some exCutSet)
        = some (max exCut.duration exCutB.duration)) :=
  ⟨mixedCut_duration_formula.1 (MixedCut.mk "m" "a" "b" (1 / 2) 0) exCutSet
      (.simple exCut) (.simple exCutB) 4 3 rfl rfl rfl rfl,
   mixedCut_duration_formula.2 exCut exCutB "m" exCutSet rfl rfl⟩

/-- C7: `append` is exactly `overlay` with the left cut's duration as the
offset (`cut.py` line 113), and once bound it has duration
`a.duration + b.duration` when `b.duration ≥ 0`. -/
theorem append_is_offset_overlay :
    (∀ (a b : Cut) (fid : String) (g : Decibels),
        a.append b fid g = a.overlay b fid a.duration g) ∧
    (∀ (a b : Cut) (fid : String) (g : Decibels) (cs : CutSet),
        cs.find a.id = some (.simple a) → cs.find b.id = some (.simple b) →
        0 ≤ b.duration →
        (a.append b fid g).duration (some cs) = some (a.duration + b.duration)) := by
  constructor
  · intro a b fid g
    rfl
  · intro a b fid g cs ha hb hd
    have hmax : max a.duration (a.duration + b.duration) = a.duration + b.duration :=
      max_eq_right (by linarith)
    simp [Cut.append, Cut.overlay, MixedCut.duration, AnyCut.durationIn, ha, hb, hmax]

/-- Witness for C7 at a concrete two-element registry. -/
theorem append_is_offset_overlay_witness :
    (exCut.append exCutB "m" 0 = exCut.overlay exCutB "m" exCut.duration 0) ∧
    ((exCut.append exCutB "m" 0).duration (some exCutSet)
        = some (exCut.duration + exCutB.duration)) :=
  ⟨append_is_offset_overlay.1 exCut exCutB "m" 0,
   append_is_offset_overlay.2 exCut exCutB "m" 0 exCutSet rfl rfl
     (by norm_num [exCutB])⟩

/-- C8: a bound mix's supervisions are the left operand's list
concatenated with the right operand's, in that order, entries unchanged
(`cut.py` line 142). -/
theorem mixedCut_supervisions_concat :
    ∀ (m : MixedCut) (cs : CutSet) (l r : AnyCut) (ls rs : List SupervisionSegment),
      cs.find m.left_cut_id = some l → cs.find m.right_cut_id = some r →
      AnyCut.supervisionsIn cs.cuts.length cs l = some ls →
      AnyCut.supervisionsIn cs.cuts.length cs r = some rs →
      m.supervisions (some cs) = some (ls ++ rs) := by
  intro m cs l r ls rs hl hr hls hrs
  simp [MixedCut.supervisions, AnyCut.supervisionsIn, hl, hr, hls, hrs]

/-- Witness for C8 at a concrete two-element registry. -/
theorem mixedCut_supervisions_concat_witness :
    (MixedCut.mk "m" "a" "b" 0 0).supervisions (some exCutSet)
      = some (exCut.supervisions ++ exCutB.supervisions) :=
  mixedCut_supervisions_concat (MixedCut.mk "m" "a" "b" 0 0) exCutSet
    (.simple exCut) (.simple exCutB) exCut.supervisions exCutB.supervisions
    rfl rfl rfl rfl

/-- C5: materializing a never-bound mix fails with the
unresolved-reference failure (reading the absent `_cut_set` attribute,
`cut.py` line 153), as does any operand-dependent derived attribute; once
bound to a registry that resolves both operand ids to cuts with identical
framing parameters, `load_features` succeeds. -/
theorem mixedCut_load_features_binding :
    (∀ m : MixedCut,
        m.load_features none = .error (.attributeError "_cut_set") ∧
        m.supervisions none = none ∧
        m.duration none = none) ∧
    (∀ (m : MixedCut) (cs : CutSet) (c0 c1 : Cut),
        cs.find m.left_cut_id = some (.simple c0) →
        cs.find m.right_cut_id = some (.simple c1) →
        c0.features.frame_length = c1.features.frame_length →
        c0.features.frame_shift = c1.features.frame_shift →
        (m.load_features (some cs)).isOk = true) := by
  constructor
  · intro m
    exact ⟨rfl, rfl, rfl⟩
  · intro m cs c0 c1 h0 h1 hl hs
    simp [MixedCut.load_features, CutSet.resolve, AnyCut.featuresOf, Except.isOk,
      Except.toBool, Except.instMonad, Except.bind, Except.pure, h0, h1, hl, hs]

/-- Witness for C5: the same mix, unbound and then bound to `exCutSet`. -/
theorem mixedCut_load_features_binding_witness :
    ((MixedCut.mk "m" "a" "b" 0 0).load_features none
        = .error (.attributeError "_cut_set") ∧
      (MixedCut.mk "m" "a" "b" 0 0).supervisions none = none ∧
      (MixedCut.mk "m" "a" "b" 0 0).duration none = none) ∧
    ((MixedCut.mk "m" "a" "b" 0 0).load_features (some exCutSet)).isOk = true :=
  ⟨mixedCut_load_features_binding.1 (MixedCut.mk "m" "a" "b" 0 0),
   mixedCut_load_features_binding.2 (MixedCut.mk "m" "a" "b" 0 0) exCutSet
     exCut exCutB rfl rfl rfl rfl⟩

/-- Every optional field of an entity is present; the optional annotation
text labels are the only optional fields in the model. -/
def AnyCut.allFieldsPresent : AnyCut → Bool
  | .simple c => c.supervisions.all (fun s => s.text.isSome)
  | .mixed _ => true

theorem except_bind_ok {α β γ : Type} {x : Except γ α} {f : α → Except γ β} {b : β}
    (h : x >>= f = .ok b) : ∃ a, x = .ok a ∧ f a = .ok b := by
  cases x with
  | ok a => exact ⟨a, rfl, h⟩
  | error e => exact absurd h (by simp [Bind.bind, Except.bind])

theorem parseSeg_toRaw (s : SupervisionSegment) :
    RawSupervision.parseSeg s.toRaw = .ok s := by
  cases s
  rfl

theorem parseFeat_toRaw (f : Features) :
    RawFeatures.parseFeat f.toRaw = .ok f := by
  cases f
  rfl

theorem mapExcept_parseSeg_toRaw (l : List SupervisionSegment) :
    mapExcept RawSupervision.parseSeg (l.map SupervisionSegment.toRaw) = .ok l := by
  induction l with
  | nil => rfl
  | cons a l ih =>
    simp [mapExcept, parseSeg_toRaw, ih, pure, Except.pure, Bind.bind, Except.bind]

theorem deserialize_toRaw (a : AnyCut) : deserialize_one a.toRaw = .ok a := by
  cases a with
  | mixed m =>
    cases m
    rfl
  | simple c =>
    cases c with
    | mk i ch st d f sups =>
      simp [deserialize_one, AnyCut.toRaw, parseFeat_toRaw, mapExcept_parseSeg_toRaw,
        pure, Except.pure, Bind.bind, Except.bind]

theorem fromYamlOne_toRaw (a : AnyCut) :
    fromYamlOne a.toRaw = .ok (a.cutId, a) := by
  cases a with
  | simple c =>
    simp only [fromYamlOne]
    rw [deserialize_toRaw]
    simp [AnyCut.toRaw, AnyCut.cutId, pure, Except.pure, Bind.bind, Except.bind]
  | mixed m =>
    simp only [fromYamlOne]
    rw [deserialize_toRaw]
    simp [AnyCut.toRaw, AnyCut.cutId, pure, Except.pure, Bind.bind, Except.bind]

theorem mapExcept_fromYamlOne_toRaw :
    ∀ l : List (String × AnyCut), (∀ p ∈ l, p.2.cutId = p.1) →
      mapExcept fromYamlOne (l.map (fun p => p.2.toRaw)) = .ok l := by
  intro l
  induction l with
  | nil => intro _; rfl
  | cons p l ih =>
    intro hid
    have hp : p.2.cutId = p.1 := hid p (by simp)
    have ht := ih (fun q hq => hid q (by simp [hq]))
    simp [mapExcept, fromYamlOne_toRaw, hp, ht, pure, Except.pure, Bind.bind,
      Except.bind]

/-- C6: serializing a registry whose entries are keyed by their own ids
and have every field present, then parsing the result back, recovers the
registry exactly: same ids, same entity kinds, all fields equal
(`cut.py` lines 187-215). -/
theorem cutSet_yaml_roundtrip :
    ∀ cs : CutSet,
      (∀ p ∈ cs.cuts, p.2.cutId = p.1) →
      (∀ p ∈ cs.cuts, p.2.allFieldsPresent = true) →
      CutSet.from_yaml cs.to_yaml = .ok cs := by
  intro cs hid _
  cases cs with
  | mk l =>
    simp [CutSet.from_yaml, CutSet.to_yaml, mapExcept_fromYamlOne_toRaw l hid,
      pure, Except.pure, Bind.bind, Except.bind]

/-- Witness for C6: the round trip through the serialized form of the
concrete two-entry registry. -/
theorem cutSet_yaml_roundtrip_witness :
    CutSet.from_yaml (CutSet.to_yaml exCutSet) = .ok exCutSet :=
  cutSet_yaml_roundtrip exCutSet (by decide) (by decide)

theorem deserialize_one_id {cut : RawCut} {c : AnyCut}
    (h : deserialize_one cut = .ok c) : cut.id = some c.cutId := by
  unfold deserialize_one at h
  split at h
  · split at h
    · injection h with h
      subst h
      rfl
    · exact absurd h (by simp)
  · split at h
    · split at h
      · obtain ⟨f, hf, h2⟩ := except_bind_ok h
        obtain ⟨sups, hsups, h3⟩ := except_bind_ok h2
        simp only [pure, Except.pure, Except.ok.injEq] at h3
        subst h3
        rfl
      · exact absurd h (by simp)
    · exact absurd h (by simp)

theorem fromYamlOne_id {cut : RawCut} {p : String × AnyCut}
    (h : fromYamlOne cut = .ok p) : p.2.cutId = p.1 := by
  unfold fromYamlOne at h
  obtain ⟨c, hc, h2⟩ := except_bind_ok h
  rw [deserialize_one_id hc] at h2
  simp only [pure, Except.pure, Except.ok.injEq] at h2
  subst h2
  rfl

theorem mapExcept_ok_mem {α β γ : Type} {f : α → Except γ β} :
    ∀ {l : List α} {res : List β}, mapExcept f l = .ok res →
      ∀ b ∈ res, ∃ a, f a = .ok b := by
  intro l
  induction l with
  | nil =>
    intro res h b hb
    simp only [mapExcept, Except.ok.injEq] at h
    subst h
    simp at hb
  | cons a l ih =>
    intro res h b hb
    simp only [mapExcept] at h
    obtain ⟨x, hx, h2⟩ := except_bind_ok h
    obtain ⟨xs, hxs, h3⟩ := except_bind_ok h2
    simp only [pure, Except.pure, Except.ok.injEq] at h3
    subst h3
    rcases List.mem_cons.mp hb with rfl | hb2
    · exact ⟨a, hx⟩
    · exact ih hxs b hb2

/-- C9: every registry built by `from_yaml` (line 211), by
`make_cuts_from_supervisions` (line 257) or by `mix_stereo_cut_set`
(line 277) stores each entity under a key equal to the entity's own id. -/
theorem cutSet_key_matches_id :
    (∀ (raw : List RawCut) (cs : CutSet),
        CutSet.from_yaml raw = .ok cs → ∀ p ∈ cs.cuts, p.2.cutId = p.1) ∧
    (∀ (fresh : ℕ → String) (sups : List SupervisionSegment) (fs : FeatureSet)
        (cs : CutSet),
        make_cuts_from_supervisions fresh sups fs = .ok cs →
        ∀ p ∈ cs.cuts, p.2.cutId = p.1) ∧
    (∀ (fresh : ℕ → String) (src cs : CutSet),
        mix_stereo_cut_set fresh src = .ok cs →
        ∀ p ∈ cs.cuts, p.2.cutId = p.1) := by
  refine ⟨?_, ?_, ?_⟩
  · intro raw cs h p hp
    unfold CutSet.from_yaml at h
    obtain ⟨pairs, hpairs, h2⟩ := except_bind_ok h
    simp only [pure, Except.pure, Except.ok.injEq] at h2
    subst h2
    obtain ⟨a, ha⟩ := mapExcept_ok_mem hpairs p hp
    exact fromYamlOne_id ha
  · intro fresh sups fs cs h p hp
    unfold make_cuts_from_supervisions at h
    obtain ⟨cuts, _, h2⟩ := except_bind_ok h
    simp only [pure, Except.pure, Except.ok.injEq] at h2
    subst h2
    rcases List.mem_map.mp hp with ⟨c, -, rfl⟩
    rfl
  · intro fresh src cs h p hp
    simp only [mix_stereo_cut_set] at h
    obtain ⟨simples, -, h2⟩ := except_bind_ok h
    split at h2
    · simp only [pure, Except.pure, Except.ok.injEq] at h2
      subst h2
      rcases List.mem_map.mp hp with ⟨mc, -, rfl⟩
      rfl
    · exact absurd h2 (by simp)

def exFeatSup : Features := ⟨"rec1", 0, 1, 2, 1 / 40, 1 / 100, "feats/rec1.llc"⟩

def exFS : FeatureSet := ⟨[exFeatSup]⟩

def exCutCh1 : Cut := ⟨"b2", 1, 0, 3, exFeat, []⟩

def exStereoSet : CutSet := ⟨[("a", .simple exCut), ("b2", .simple exCutCh1)]⟩

def exFresh : ℕ → String := fun _ => "u0"

/-- Witness for C9: one concrete registry from each of the three
constructors. -/
theorem cutSet_key_matches_id_witness :
    (AnyCut.simple exCut).cutId = "a" ∧
    (AnyCut.simple (Cut.mk "u0" 0 1 2 exFeatSup [exSup])).cutId = "u0" ∧
    (AnyCut.mixed (MixedCut.mk "u0" "a" "b2" 0 0)).cutId = "u0" :=
  ⟨cutSet_key_matches_id.1 (CutSet.to_yaml exCutSet) exCutSet rfl
      ("a", AnyCut.simple exCut) (by simp [exCutSet]),
   cutSet_key_matches_id.2.1 exFresh [exSup] exFS
      ⟨[("u0", AnyCut.simple (Cut.mk "u0" 0 1 2 exFeatSup [exSup]))]⟩ rfl
      ("u0", AnyCut.simple (Cut.mk "u0" 0 1 2 exFeatSup [exSup])) (by simp),
   cutSet_key_matches_id.2.2 exFresh exStereoSet
      ⟨[("u0", AnyCut.mixed (MixedCut.mk "u0" "a" "b2" 0 0))]⟩ rfl
      ("u0", AnyCut.mixed (MixedCut.mk "u0" "a" "b2" 0 0)) (by simp)⟩
